import Mathlib

/-!
Shallow embedding of the customer-CSV filtering tool (`src/app.py`).

The program loads a CSV with pandas (`dtype=str`, `fillna("")`), so every
cell is a string and a missing cell reads as `""`.  A row is modelled as an
association list from column name to cell value; `getCell` mirrors the
pandas column access on the normalized frame (absent cells having been
filled with the empty string at load time).  Python string primitives
(`lower`, `upper`, `strip`, slicing, substring search) are embedded as
structurally recursive functions on the character list of a string.
-/

/-- A row: ordered mapping from column name to string cell value. -/
def Row : Type := List (String × String)

instance : DecidableEq Row := by unfold Row; infer_instance

/-- Cell access on a loaded row: pandas `df.fillna("")` makes every absent
or null cell the empty string, so lookup defaults to `""`. -/
def getCell (r : Row) (c : String) : String :=
  (r.lookup c).getD ""

/-- Python `str.lower` (ASCII case mapping on each character). -/
def strLower (s : String) : String :=
  ⟨s.data.map Char.toLower⟩

/-- Python `str.upper` (ASCII case mapping on each character). -/
def strUpper (s : String) : String :=
  ⟨s.data.map Char.toUpper⟩

/-- Python `str.strip()`: remove leading and trailing whitespace. -/
def strTrim (s : String) : String :=
  ⟨((s.data.dropWhile Char.isWhitespace).reverse.dropWhile Char.isWhitespace).reverse⟩

/-- Python slicing `x[:n]`: the first `n` characters. -/
def strTake (s : String) (n : Nat) : String :=
  ⟨s.data.take n⟩

/-- Does `needle` occur as a contiguous run at the front of `hay`? -/
def prefixAt : List Char → List Char → Bool
  | [], _ => true
  | _ :: _, [] => false
  | a :: as, b :: bs => a == b && prefixAt as bs

/-- Does `needle` occur as a contiguous run anywhere in `hay`?
This is the substring search a regex alternation of literals performs. -/
def containsSub : List Char → List Char → Bool
  | needle, [] => prefixAt needle []
  | needle, b :: tl => prefixAt needle (b :: tl) || containsSub needle tl

/-- The banned-name terms of the regex
`"canceled|cancelled|test|testing|customer"` in `app.py` lines 58-69:
a pure alternation of literals, so a case-insensitive regex match is
exactly "some term is a substring". -/
def bannedTerms : List String :=
  ["canceled", "cancelled", "test", "testing", "customer"]

/-- `Series.str.contains(pattern, case=False, regex=True)` for the literal
alternation above: some banned term occurs (case-insensitively) as a
substring of `s`. -/
def nameMatches (s : String) : Bool :=
  bannedTerms.any (fun t => containsSub t.data (strLower s).data)

/-- The row mask of `app.py` lines 57-72: keep a row iff neither name
matches the banned pattern, and the trimmed Customer Drivers License is
neither `N/A` (case-insensitively) nor empty. -/
def mask (r : Row) : Bool :=
  !nameMatches (getCell r "First Name") &&
  !nameMatches (getCell r "Last Name") &&
  (strUpper (strTrim (getCell r "Customer Drivers License")) != "N/A") &&
  (strTrim (getCell r "Customer Drivers License") != "")

/-- `filtered_df = df[mask]` (`app.py` line 75): the kept rows, in input order. -/
def filtered_df (T : List Row) : List Row :=
  T.filter mask

/-- `excluded_df = df[~mask]` (`app.py` line 76): the excluded rows, in input order. -/
def excluded_df (T : List Row) : List Row :=
  T.filter (fun r => !mask r)

/-- The required-column list of `app.py` lines 35-40, verbatim. -/
def required_cols : List String :=
  ["First Name", "Last Name", "Customer Drivers License", "Customer ID",
   "Gender", "Date of Birth", "Email", "Opted In", "Phone",
   "Street Address", "City", "State", "Zip Code",
   "Reward Points ($) Balance", "Customer Source",
   "Customer Drivers License Expiration Date", "Medical Id",
   "Customer Medical Id Expiration Date", "Customer Profile Notes", "Banned"]

/-- The schema-validation failure surfaced at `app.py` lines 43-45: the
missing required columns and the columns actually present. -/
structure SchemaError where
  missing : List String
  present : List String
deriving DecidableEq

/-- The load/validate step (`app.py` lines 30-45): given the input header
`cols` and rows, compute `missing_cols = [col for col in required_cols if
col not in df.columns]`; on any missing column report the error (no row is
processed), otherwise hand the table on unchanged. -/
def loadTable (cols : List String) (rows : List Row) :
    Except SchemaError (List String × List Row) :=
  let missing_cols := required_cols.filter (fun c => !cols.contains c)
  if missing_cols.isEmpty then Except.ok (cols, rows)
  else Except.error ⟨missing_cols, cols⟩

/-- Remove every occurrence of character `c`: the semantics of the pandas
`str.replace(c, '')` with a single-character literal pattern
(`app.py` line 99). -/
def removeChar (c : Char) (s : String) : String :=
  ⟨s.data.filter (fun a => a != c)⟩

/-- `point_balance` (`app.py` line 99): strip `$` then `,` from the
Reward Points ($) Balance cell. -/
def point_balance (s : String) : String :=
  removeChar ',' (removeChar '$' s)

/-- Medical Document Type (`app.py` lines 113-115):
`'MMID' if x.strip() != '' else 'None'`. -/
def medDocType (x : String) : String :=
  if strTrim x != "" then "MMID" else "None"

/-- Medical Document Number (`app.py` lines 118-120):
`x if x.strip() != '' else 'None'`. -/
def medDocNumber (x : String) : String :=
  if strTrim x != "" then x else "None"

/-- Notes derivation (`app.py` lines 128-130):
`x[:500] if len(x) > 500 else x`. -/
def notesTrunc (x : String) : String :=
  if x.length > 500 then strTake x 500 else x

/-- An apostrophe character, used in the literal Primary Document Type. -/
def apos : Char := Char.ofNat 39

/-- The reshaped row built column-by-column at `app.py` lines 79-132,
in the exact assignment order of the source. -/
def formattedRow (r : Row) : Row :=
  [("external ID", getCell r "Customer ID"),
   ("First Name", getCell r "First Name"),
   ("Last Name", getCell r "Last Name"),
   ("Gender", getCell r "Gender"),
   ("Date of Birth", getCell r "Date of Birth"),
   ("Email", getCell r "Email"),
   ("Email Opt-In", getCell r "Opted In"),
   ("Phone", getCell r "Phone"),
   ("SMS Opt-In", "N"),
   ("Push Opt-In", "N"),
   ("Address", getCell r "Street Address" ++ ", " ++ getCell r "City"),
   ("State", getCell r "State"),
   ("Zip", getCell r "Zip Code"),
   ("Minimum Loyalty Level", "None"),
   ("Point Balance", point_balance (getCell r "Reward Points ($) Balance")),
   ("Referral Source", getCell r "Customer Source"),
   ("Created In Store", "Y"),
   ("Doctor", "N/A"),
   ("Doctor License", "N/A"),
   ("Primary Document Type", "Driver" ++ String.mk [apos] ++ "s License"),
   ("Primary Document Number", getCell r "Customer Drivers License"),
   ("Expiration Date", getCell r "Customer Drivers License Expiration Date"),
   ("Medical Document Type", medDocType (getCell r "Medical Id")),
   ("Medical Document Number", medDocNumber (getCell r "Medical Id")),
   ("Medical Document Expiration Date", getCell r "Customer Medical Id Expiration Date"),
   ("Medical Document Renewal Rate", ""),
   ("Medical Document Issue Date", ""),
   ("Image URL", ""),
   ("Notes", notesTrunc (getCell r "Customer Profile Notes")),
   ("Banned", getCell r "Banned")]

/-- `formatted_df` (`app.py` lines 79-132): the reshape applied to every
kept row, in order. -/
def formatted_df (T : List Row) : List Row :=
  (filtered_df T).map formattedRow

/-- The output column schema of the reshape, as named in the derivation
table of the specification (section 4.2), in its stated order. -/
def targetSchema : List String :=
  ["external ID", "First Name", "Last Name", "Gender", "Date of Birth",
   "Email", "Email Opt-In", "Phone", "SMS Opt-In", "Push Opt-In",
   "Address", "State", "Zip", "Minimum Loyalty Level", "Point Balance",
   "Referral Source", "Created In Store", "Doctor", "Doctor License",
   "Primary Document Type", "Primary Document Number", "Expiration Date",
   "Medical Document Type", "Medical Document Number",
   "Medical Document Expiration Date", "Medical Document Renewal Rate",
   "Medical Document Issue Date", "Image URL", "Notes", "Banned"]

/-! ## Helper lemmas -/

/-- `prefixAt` decides the prefix relation. -/
theorem prefixAt_iff (n h : List Char) : prefixAt n h = true ↔ n <+: h := by
  induction n generalizing h with
  | nil => simp [prefixAt]
  | cons a as ih =>
    cases h with
    | nil => simp [prefixAt]
    | cons b bs =>
      simp [prefixAt, Bool.and_eq_true, beq_iff_eq, ih, List.cons_prefix_cons]

/-- `containsSub` decides the infix (substring) relation. -/
theorem containsSub_iff (n h : List Char) : containsSub n h = true ↔ n <:+: h := by
  induction h with
  | nil => simp [containsSub, prefixAt_iff, List.infix_nil, List.prefix_nil]
  | cons b bs ih =>
    simp [containsSub, Bool.or_eq_true, prefixAt_iff, ih, List.infix_cons_iff]

/-! ## Claims -/

/-- C1: a row is kept by the mask iff (1) no banned term occurs
case-insensitively as a substring of First Name, (2) likewise for
Last Name, and (3) the trimmed Customer Drivers License is non-empty and
its uppercasing differs from the literal `N/A`. -/
theorem C1_keep_iff (r : Row) :
    mask r = true ↔
      ((∀ t ∈ bannedTerms, ¬ (t.data <:+: (strLower (getCell r "First Name")).data)) ∧
       (∀ t ∈ bannedTerms, ¬ (t.data <:+: (strLower (getCell r "Last Name")).data)) ∧
       strTrim (getCell r "Customer Drivers License") ≠ "" ∧
       strUpper (strTrim (getCell r "Customer Drivers License")) ≠ "N/A") := by
  simp only [mask, nameMatches, Bool.and_eq_true, Bool.not_eq_true',
    List.any_eq_false, containsSub_iff, bne_iff_ne, ne_eq]
  tauto

/-- C2: the filter partitions the input: the two output lengths sum to the
input length, a row is in the kept (resp. excluded) output iff it is an
input row the mask accepts (resp. rejects), no row is in both, and both
outputs are subsequences of the input, hence in original input order. -/
theorem C2_partition (T : List Row) :
    (filtered_df T).length + (excluded_df T).length = T.length ∧
    (∀ r : Row, r ∈ filtered_df T ↔ (r ∈ T ∧ mask r = true)) ∧
    (∀ r : Row, r ∈ excluded_df T ↔ (r ∈ T ∧ mask r = false)) ∧
    (∀ r : Row, ¬ (r ∈ filtered_df T ∧ r ∈ excluded_df T)) ∧
    List.Sublist (filtered_df T) T ∧ List.Sublist (excluded_df T) T := by
  have hlen := List.length_eq_length_filter_add (l := T) mask
  refine ⟨?_, ?_, ?_, ?_, List.filter_sublist T, List.filter_sublist T⟩
  · unfold filtered_df excluded_df
    omega
  · intro r
    simp [filtered_df, List.mem_filter]
  · intro r
    simp [excluded_df, List.mem_filter, Bool.not_eq_true']
  · intro r
    simp only [filtered_df, excluded_df, List.mem_filter, Bool.not_eq_true']
    rintro ⟨⟨-, h1⟩, -, h2⟩
    rw [h1] at h2
    exact Bool.noConfusion h2

/-- C3 counterexample: the reshape's output schema does not have 26
columns (it has 30), already on the empty row. -/
theorem C3_schema_not_26 :
    ((formattedRow ([] : Row)).map Prod.fst).length = 30 ∧ (30 : Nat) ≠ 26 := by
  constructor
  · rfl
  · decide

/-- C3 (amended): every kept row is projected into a fixed 30-column
target schema whose names and order are exactly those of the derivation
table, independent of the row's content. -/
theorem C3_fixed_schema (r : Row) :
    (formattedRow r).map Prod.fst = targetSchema ∧ targetSchema.length = 30 :=
  ⟨rfl, rfl⟩

/-- C4 counterexample: the loader's required-column list does not have 19
entries (it has 20). -/
theorem C4_not_19_required : required_cols.length ≠ 19 := by decide

/-- C4 (amended): the loader is configured with exactly 20 required
columns, and whenever any required column is missing from the input header
it fails with a SchemaError carrying the complete missing-column list and
the complete list of columns present, handing no rows on for processing. -/
theorem C4_loader_schema_error (cols : List String) (rows : List Row)
    (h : required_cols.filter (fun c => !cols.contains c) ≠ []) :
    required_cols.length = 20 ∧
    loadTable cols rows =
      Except.error ⟨required_cols.filter (fun c => !cols.contains c), cols⟩ := by
  refine ⟨rfl, ?_⟩
  unfold loadTable
  rw [if_neg]
  simpa [List.isEmpty_iff] using h

/-- C4 witness: a headerless input is rejected with every required column
reported missing and an empty present list. -/
theorem C4_loader_schema_error_witness :
    required_cols.length = 20 ∧
    loadTable [] [] =
      Except.error
        ⟨required_cols.filter (fun c => !(([] : List String).contains c)), []⟩ :=
  C4_loader_schema_error [] [] (by decide)

/-- C5: in the reshaped row, Medical Document Type is `MMID` when the
trimmed Medical Id is non-empty and `None` otherwise, and Medical Document
Number is the (untrimmed) Medical Id cell when its trim is non-empty and
the literal `None` otherwise. -/
theorem C5_medical_fields (r : Row) :
    getCell (formattedRow r) "Medical Document Type" =
      (if strTrim (getCell r "Medical Id") ≠ "" then "MMID" else "None") ∧
    getCell (formattedRow r) "Medical Document Number" =
      (if strTrim (getCell r "Medical Id") ≠ "" then getCell r "Medical Id"
       else "None") := by
  have h1 : getCell (formattedRow r) "Medical Document Type" =
      medDocType (getCell r "Medical Id") := rfl
  have h2 : getCell (formattedRow r) "Medical Document Number" =
      medDocNumber (getCell r "Medical Id") := rfl
  rw [h1, h2]
  unfold medDocType medDocNumber
  by_cases h : strTrim (getCell r "Medical Id") = "" <;> simp [h]

/-- C6: in the reshaped row, Notes is the Customer Profile Notes cell
truncated to its first 500 characters when longer than 500 characters and
unchanged otherwise; in particular any 600-character value yields its
first 500 characters and any 10-character value is unchanged. -/
theorem C6_notes_truncation (r : Row) :
    (getCell (formattedRow r) "Notes" =
      (if (getCell r "Customer Profile Notes").length > 500
       then strTake (getCell r "Customer Profile Notes") 500
       else getCell r "Customer Profile Notes")) ∧
    (∀ s : String, s.length = 600 → notesTrunc s = strTake s 500) ∧
    (∀ s : String, s.length = 10 → notesTrunc s = s) := by
  refine ⟨rfl, ?_, ?_⟩
  · intro s hs
    simp [notesTrunc, hs]
  · intro s hs
    simp [notesTrunc, hs]

set_option maxRecDepth 8000 in
/-- C6 witness: a concrete 600-character input is cut to its first 500
characters and a concrete 10-character input is unchanged. -/
theorem C6_notes_truncation_witness :
    notesTrunc ⟨List.replicate 600 'a'⟩ =
      strTake ⟨List.replicate 600 'a'⟩ 500 ∧
    notesTrunc "0123456789" = "0123456789" := by
  constructor
  · exact (C6_notes_truncation []).2.1 _ (by rfl)
  · exact (C6_notes_truncation []).2.2 _ (by decide)

/-- C7: in the reshaped row, Point Balance is the Reward Points ($)
Balance cell with every occurrence of the characters `$` and `,`
removed. -/
theorem C7_point_balance (r : Row) :
    getCell (formattedRow r) "Point Balance" =
      ⟨(getCell r "Reward Points ($) Balance").data.filter
        (fun c => !(c == '$') && !(c == ','))⟩ := by
  have h1 : getCell (formattedRow r) "Point Balance" =
      point_balance (getCell r "Reward Points ($) Balance") := rfl
  rw [h1]
  unfold point_balance removeChar
  rw [List.filter_filter]
  congr 1
  apply List.filter_congr
  intro a _
  exact Bool.and_comm _ _

/-- C8: a missing First Name / Last Name cell reads as the empty string,
and an empty name never matches the banned-term pattern, so it satisfies
the name conditions of the predicate. -/
theorem C8_empty_name_safe (r : Row) :
    (List.lookup "First Name" r = none →
      nameMatches (getCell r "First Name") = false) ∧
    (List.lookup "Last Name" r = none →
      nameMatches (getCell r "Last Name") = false) ∧
    (getCell r "First Name" = "" →
      nameMatches (getCell r "First Name") = false) ∧
    (getCell r "Last Name" = "" →
      nameMatches (getCell r "Last Name") = false) := by
  refine ⟨?_, ?_, ?_, ?_⟩ <;> intro h
  · have he : getCell r "First Name" = "" := by simp [getCell, h]
    rw [he]; decide
  · have he : getCell r "Last Name" = "" := by simp [getCell, h]
    rw [he]; decide
  · rw [h]; decide
  · rw [h]; decide

/-- C8 witness: on a row with no name cells and on a row with empty name
cells, the banned-term predicate evaluates to false. -/
theorem C8_empty_name_safe_witness :
    nameMatches (getCell ([] : Row) "First Name") = false ∧
    nameMatches (getCell [("First Name", ""), ("Last Name", "")] "Last Name") = false :=
  ⟨(C8_empty_name_safe []).1 rfl,
   (C8_empty_name_safe [("First Name", ""), ("Last Name", "")]).2.2.2 rfl⟩

/-- C9: the kept/excluded classification depends only on the First Name,
Last Name and Customer Drivers License cells: two rows agreeing on those
three cells are classified identically. -/
theorem C9_mask_depends_on_three_cells (r₁ r₂ : Row)
    (h1 : getCell r₁ "First Name" = getCell r₂ "First Name")
    (h2 : getCell r₁ "Last Name" = getCell r₂ "Last Name")
    (h3 : getCell r₁ "Customer Drivers License" =
      getCell r₂ "Customer Drivers License") :
    mask r₁ = mask r₂ := by
  unfold mask
  rw [h1, h2, h3]

/-- C9 witness: two concrete rows agreeing on the three decision cells but
differing in every other column get the same classification. -/
theorem C9_mask_depends_on_three_cells_witness :
    mask [("First Name", "Ann"), ("Last Name", "Lee"),
          ("Customer Drivers License", "D123"), ("Email", "a@example.com")] =
    mask [("Email", "b@example.com"), ("First Name", "Ann"),
          ("Last Name", "Lee"), ("Customer Drivers License", "D123"),
          ("City", "Reno")] :=
  C9_mask_depends_on_three_cells _ _ rfl rfl rfl

/-- C10: excluded rows are emitted verbatim: the excluded output is a
subsequence of the input (original order, original row objects), and a row
is in it iff it is an input row rejected by the mask - so every excluded
row keeps its full original schema and cell values unchanged. -/
theorem C10_excluded_verbatim (T : List Row) :
    List.Sublist (excluded_df T) T ∧
    (∀ r : Row, r ∈ excluded_df T ↔ (r ∈ T ∧ mask r = false)) := by
  refine ⟨List.filter_sublist T, ?_⟩
  intro r
  simp [excluded_df, List.mem_filter, Bool.not_eq_true']

/-- C1 witness: on a concrete kept row the keep conditions hold. -/
theorem C1_keep_iff_witness :
    strTrim (getCell [("First Name", "Ann"), ("Last Name", "Lee"),
      ("Customer Drivers License", "D123")] "Customer Drivers License") ≠ "" :=
  ((C1_keep_iff [("First Name", "Ann"), ("Last Name", "Lee"),
      ("Customer Drivers License", "D123")]).mp rfl).2.2.1

/-- C2 witness: on a concrete two-row table the output sizes sum to the
input size. -/
theorem C2_partition_witness :
    (filtered_df [[("First Name", "Ann"), ("Last Name", "Lee"),
        ("Customer Drivers License", "D123")],
      [("First Name", "Test User"), ("Last Name", "Doe"),
        ("Customer Drivers License", "D456")]]).length +
    (excluded_df [[("First Name", "Ann"), ("Last Name", "Lee"),
        ("Customer Drivers License", "D123")],
      [("First Name", "Test User"), ("Last Name", "Doe"),
        ("Customer Drivers License", "D456")]]).length = 2 :=
  (C2_partition _).1

/-- C3 witness: the empty row reshapes to exactly the target schema. -/
theorem C3_fixed_schema_witness :
    (formattedRow ([] : Row)).map Prod.fst = targetSchema :=
  (C3_fixed_schema []).1

/-- C5 witness: a concrete non-empty Medical Id yields type MMID. -/
theorem C5_medical_fields_witness :
    getCell (formattedRow [("Medical Id", "M12345")]) "Medical Document Type" =
      (if strTrim (getCell [("Medical Id", "M12345")] "Medical Id") ≠ ""
       then "MMID" else "None") :=
  (C5_medical_fields [("Medical Id", "M12345")]).1

/-- C7 witness: a concrete balance cell has its dollar signs and commas
removed. -/
theorem C7_point_balance_witness :
    getCell (formattedRow [("Reward Points ($) Balance", "$1,234.50")])
        "Point Balance" =
      ⟨(getCell [("Reward Points ($) Balance", "$1,234.50")]
          "Reward Points ($) Balance").data.filter
        (fun c => !(c == '$') && !(c == ','))⟩ :=
  C7_point_balance [("Reward Points ($) Balance", "$1,234.50")]

/-- C10 witness: on a concrete table the excluded output is a subsequence
of the input. -/
theorem C10_excluded_verbatim_witness :
    List.Sublist
      (excluded_df [[("First Name", "Test User"), ("Last Name", "Doe"),
        ("Customer Drivers License", "D456"), ("Extra Column", "kept verbatim")]])
      [[("First Name", "Test User"), ("Last Name", "Doe"),
        ("Customer Drivers License", "D456"), ("Extra Column", "kept verbatim")]] :=
  (C10_excluded_verbatim _).1
